import Mathlib

/-!
Shallow embedding of `src/jquery.orientation-change.js`
(mobileDetectOrientationChange): an orientation monitor that translates
native browser signals (`orientationchange` / `resize`) into the semantic
events `landscape`, `portrait`, `orientationchanged`.

The jQuery plugin is pure glue: the embedding models a DOM-like target as a
record of the fields the code reads, models event dispatch as the list of
event objects passed to `.trigger`, and models the closure variable
`orientation` of `init` as an explicit `Monitor` state threaded through the
signal handlers.
-/

namespace OrientationChange

/-- The per-target orientation state, source line
`var ORIENTATION` with members `LANDSCAPE: 1, PORTRAIT: 2`. -/
inductive ORIENTATION
  | LANDSCAPE
  | PORTRAIT
deriving DecidableEq

/-- A DOM-like target element, holding exactly the fields the plugin reads:
the native orientation angle (`element.orientation`, `none` models the
`typeof(element.orientation) === 'undefined'` case), the reported geometry
(`element.innerWidth`, `element.innerHeight`), and the two capability probes
(`'onorientationchange' in element`, `'onresize' in element`). -/
structure Element where
  orientation : Option Int
  innerWidth : Int
  innerHeight : Int
  onorientationchange : Bool
  onresize : Bool
deriving DecidableEq

/-- The global `window` object's geometry, read by the resize handler
(`window.innerWidth`, `window.innerHeight`). -/
structure Window where
  innerWidth : Int
  innerHeight : Int
deriving DecidableEq

/-- JavaScript loose equality `element.orientation == 0`: an undefined value
is not loosely equal to the number `0`; a number compares by value.
(`element.orientation != 0` is the exact negation.) -/
def jsEqZero : Option Int → Bool
  | some a => a == 0
  | none => false

/-- `$.fn.isLandscape` (source lines 81-94): if the target exposes an
orientation angle, return `element.orientation != 0`; otherwise fall back to
`element.innerWidth > element.innerHeight`. -/
def isLandscape (self : Element) : Bool :=
  match self.orientation with
  | some o => if o != 0 then true else false
  | none => decide (self.innerWidth > self.innerHeight)

/-- An event object passed to jQuery `.trigger`: the `type` string and the
payload fields `landscape` and `portrait`. -/
structure Event where
  type : String
  landscape : Bool
  portrait : Bool
deriving DecidableEq

/-- `function landscape(self)` (source lines 100-103): the two events it
triggers on `self`, in dispatch order. -/
def landscape : List Event :=
  [{ type := "landscape", landscape := true, portrait := false },
   { type := "orientationchanged", landscape := true, portrait := false }]

/-- `function portrait(self)` (source lines 109-112): the two events it
triggers on `self`, in dispatch order. -/
def portrait : List Event :=
  [{ type := "portrait", landscape := false, portrait := true },
   { type := "orientationchanged", landscape := false, portrait := true }]

/-- The closure installed by `init` for the native `orientationchange`
signal (source lines 127-135): reads `element.orientation` at signal time,
compares with the tracked state, and emits plus updates only on a flip. -/
def orientationchangeHandler (element : Element) (orientation : ORIENTATION) :
    List Event × ORIENTATION :=
  if jsEqZero element.orientation = true ∧ orientation = ORIENTATION.LANDSCAPE then
    (portrait, ORIENTATION.PORTRAIT)
  else if jsEqZero element.orientation = false ∧ orientation = ORIENTATION.PORTRAIT then
    (landscape, ORIENTATION.LANDSCAPE)
  else
    ([], orientation)

/-- The closure installed by `init` for the native `resize` signal (source
lines 139-147): reads the global `window.innerWidth` / `window.innerHeight`
(not the captured element's geometry), compares with the tracked state, and
emits plus updates only on a flip. -/
def resizeHandler (window : Window) ( _element : Element) (orientation : ORIENTATION) :
    List Event × ORIENTATION :=
  if window.innerWidth < window.innerHeight ∧ orientation = ORIENTATION.LANDSCAPE then
    (portrait, ORIENTATION.PORTRAIT)
  else if window.innerWidth ≥ window.innerHeight ∧ orientation = ORIENTATION.PORTRAIT then
    (landscape, ORIENTATION.LANDSCAPE)
  else
    ([], orientation)

/-- Which native signal source `init` subscribed to on the target. -/
inductive Listener
  | orientationchangeListener
  | resizeListener
deriving DecidableEq

/-- The per-target detector state created by `init`: the closure variable
`orientation` and the one listener registration performed by the
`if / else if` chain. -/
structure Monitor where
  orientation : ORIENTATION
  listener : Option Listener
deriving DecidableEq

/-- `function init(idx, element)` (source lines 120-149): query the current
orientation once into the closure variable, then register the
`orientationchange` handler if `'onorientationchange' in element`, else the
`resize` handler if `'onresize' in element`, else nothing. No event is
triggered; the first component is the (empty) list of events dispatched
during attachment. -/
def init (element : Element) : List Event × Monitor :=
  let orientation :=
    if isLandscape element then ORIENTATION.LANDSCAPE else ORIENTATION.PORTRAIT
  if element.onorientationchange then
    ([], { orientation := orientation, listener := some Listener.orientationchangeListener })
  else if element.onresize then
    ([], { orientation := orientation, listener := some Listener.resizeListener })
  else
    ([], { orientation := orientation, listener := none })

/-- `$.fn.detectOrientationChange` (source lines 172-175): `$.each(this, init)`
over the collection, then `return this`. -/
def detectOrientationChange (elements : List Element) :
    List (List Event × Monitor) × List Element :=
  (elements.map init, elements)

/-- `$.fn.testOrientation` (source lines 155-166): no change comparison, just
trigger `landscape(self)` or `portrait(self)` from the current query, and
`return self`. -/
def testOrientation (self : Element) : List Event × Element :=
  if isLandscape self then (landscape, self) else (portrait, self)

/-- Manual-trigger run while a detector is attached: the body of
`testOrientation` never mentions the closure variable `orientation` of
`init`, so the detector's monitor passes through unchanged. -/
def testOrientationWithMonitor (self : Element) (monitor : Monitor) :
    (List Event × Element) × Monitor :=
  (testOrientation self, monitor)

/-- One native signal firing on an attached target: dispatch to whichever
handler `init` registered (reading the element's angle, respectively the
global window's geometry, at fire time); with no registration nothing runs. -/
def fireSignalM (window : Window) (element : Element) (monitor : Monitor) :
    List Event × Monitor :=
  match monitor.listener with
  | some Listener.orientationchangeListener =>
      ((orientationchangeHandler element monitor.orientation).1,
        { monitor with orientation := (orientationchangeHandler element monitor.orientation).2 })
  | some Listener.resizeListener =>
      ((resizeHandler window element monitor.orientation).1,
        { monitor with orientation := (resizeHandler window element monitor.orientation).2 })
  | none => ([], monitor)

/-- A sequence of native signals, each observed with the window geometry and
element fields live at its fire time; collects every event the detector
dispatches. -/
def runSignals (monitor : Monitor) : List (Window × Element) → List Event
  | [] => []
  | signal :: rest =>
      (fireSignalM signal.1 signal.2 monitor).1 ++
        runSignals (fireSignalM signal.1 signal.2 monitor).2 rest

/-- The orientation the `orientationchange` handler's branch conditions
classify from the element's angle at fire time. -/
def angleDerived (element : Element) : ORIENTATION :=
  if jsEqZero element.orientation = true then ORIENTATION.PORTRAIT else ORIENTATION.LANDSCAPE

/-- The orientation the `resize` handler's branch conditions classify from
the global window geometry at fire time. -/
def resizeDerived (window : Window) : ORIENTATION :=
  if window.innerWidth ≥ window.innerHeight then ORIENTATION.LANDSCAPE else ORIENTATION.PORTRAIT

/-- The orientation a fired signal derives, per registered listener kind. -/
def derivedOrientation : Listener → Window → Element → ORIENTATION
  | Listener.orientationchangeListener, _, element => angleDerived element
  | Listener.resizeListener, window, _ => resizeDerived window

/-- An emission is well ordered when it is empty or is exactly the pair
dispatched by `landscape(self)` or by `portrait(self)`: the
orientation-specific event immediately followed by `orientationchanged`,
with identical payloads. -/
def pairedEmission (es : List Event) : Prop :=
  es = [] ∨ es = landscape ∨ es = portrait

/-! ### Helper lemmas about the two signal handlers -/

theorem orientationchangeHandler_snd (element : Element) (s : ORIENTATION) :
    (orientationchangeHandler element s).2 = angleDerived element := by
  unfold orientationchangeHandler angleDerived
  cases h : jsEqZero element.orientation <;> cases s <;> simp [h]

theorem resizeHandler_snd (window : Window) (element : Element) (s : ORIENTATION) :
    (resizeHandler window element s).2 = resizeDerived window := by
  unfold resizeHandler resizeDerived
  rcases lt_or_le window.innerWidth window.innerHeight with h | h
  · have h' : ¬ window.innerWidth ≥ window.innerHeight := not_le.mpr h
    cases s <;> simp [h, h']
  · have h' : ¬ window.innerWidth < window.innerHeight := not_lt.mpr h
    cases s <;> simp [h, h']

theorem orientationchangeHandler_nochange (element : Element) (s : ORIENTATION)
    (h : angleDerived element = s) :
    orientationchangeHandler element s = ([], s) := by
  unfold angleDerived at h
  unfold orientationchangeHandler
  cases hz : jsEqZero element.orientation <;> cases s <;> simp [hz] at h ⊢

theorem resizeHandler_nochange (window : Window) (element : Element) (s : ORIENTATION)
    (h : resizeDerived window = s) :
    resizeHandler window element s = ([], s) := by
  unfold resizeDerived at h
  unfold resizeHandler
  rcases lt_or_le window.innerWidth window.innerHeight with hw | hw
  · have h' : ¬ window.innerWidth ≥ window.innerHeight := not_le.mpr hw
    cases s <;> simp [hw, h'] at h ⊢
  · have h' : ¬ window.innerWidth < window.innerHeight := not_lt.mpr hw
    cases s <;> simp [hw, h'] at h ⊢

theorem fireSignalM_none (w : Window) (e : Element) (m : Monitor)
    (h : m.listener = none) : fireSignalM w e m = ([], m) := by
  simp [fireSignalM, h]

theorem fireSignalM_orientation (w : Window) (e : Element) (m : Monitor) (l : Listener)
    (h : m.listener = some l) :
    (fireSignalM w e m).2.orientation = derivedOrientation l w e := by
  cases l <;>
    simp [fireSignalM, h, derivedOrientation, orientationchangeHandler_snd, resizeHandler_snd]

theorem fireSignalM_listener (w : Window) (e : Element) (m : Monitor) :
    (fireSignalM w e m).2.listener = m.listener := by
  cases h : m.listener with
  | none => simp [fireSignalM, h]
  | some l => cases l <;> simp [fireSignalM, h]

theorem fireSignalM_nochange (w : Window) (e : Element) (m : Monitor) (l : Listener)
    (hl : m.listener = some l) (hd : derivedOrientation l w e = m.orientation) :
    fireSignalM w e m = ([], m) := by
  obtain ⟨mo, ml⟩ := m
  obtain rfl : ml = some l := hl
  cases l
  · simp only [derivedOrientation] at hd
    simp [fireSignalM, orientationchangeHandler_nochange e mo hd]
  · simp only [derivedOrientation] at hd
    simp [fireSignalM, resizeHandler_nochange w e mo hd]

theorem orientationchangeHandler_paired (element : Element) (s : ORIENTATION) :
    pairedEmission (orientationchangeHandler element s).1 := by
  unfold orientationchangeHandler
  split
  · exact Or.inr (Or.inr rfl)
  · split
    · exact Or.inr (Or.inl rfl)
    · exact Or.inl rfl

theorem resizeHandler_paired (window : Window) (element : Element) (s : ORIENTATION) :
    pairedEmission (resizeHandler window element s).1 := by
  unfold resizeHandler
  split
  · exact Or.inr (Or.inr rfl)
  · split
    · exact Or.inr (Or.inl rfl)
    · exact Or.inl rfl

theorem fireSignalM_paired (w : Window) (e : Element) (m : Monitor) :
    pairedEmission (fireSignalM w e m).1 := by
  cases h : m.listener with
  | none => exact Or.inl (by simp [fireSignalM, h])
  | some l =>
      cases l
      · simpa [fireSignalM, h] using orientationchangeHandler_paired e m.orientation
      · simpa [fireSignalM, h] using resizeHandler_paired w e m.orientation

theorem mem_pair_complement (ev : Event)
    (h : ev ∈ landscape ∨ ev ∈ portrait) : ev.landscape = !ev.portrait := by
  rcases h with h | h <;> simp [landscape, portrait] at h <;>
    rcases h with rfl | rfl <;> rfl

/-! ### Claim theorems -/

/-- C1: the Change Detector emits only on a genuine state transition: a
native signal whose derived orientation equals the stored state emits
nothing and leaves the monitor unchanged, and a second signal observed with
the same window geometry and element fields as the previous one emits
nothing after the first. -/
theorem detector_fires_only_on_transition (w : Window) (e : Element) (m : Monitor) :
    (∀ l, m.listener = some l → derivedOrientation l w e = m.orientation →
      fireSignalM w e m = ([], m)) ∧
    (fireSignalM w e (fireSignalM w e m).2).1 = [] := by
  constructor
  · intro l hl hd
    exact fireSignalM_nochange w e m l hl hd
  · cases hm : m.listener with
    | none =>
        rw [fireSignalM_none w e m hm, fireSignalM_none w e m hm]
    | some l =>
        have hl2 : (fireSignalM w e m).2.listener = some l := by
          rw [fireSignalM_listener w e m, hm]
        have hd2 : derivedOrientation l w e = (fireSignalM w e m).2.orientation :=
          (fireSignalM_orientation w e m l hm).symm
        rw [fireSignalM_nochange w e (fireSignalM w e m).2 l hl2 hd2]

/-- Witness for C1: a resize signal with window 300×400 on a detector whose
stored state is already Portrait emits nothing and changes nothing. -/
theorem detector_fires_only_on_transition_witness :
    fireSignalM { innerWidth := 300, innerHeight := 400 }
      { orientation := none, innerWidth := 300, innerHeight := 400,
        onorientationchange := false, onresize := true }
      { orientation := ORIENTATION.PORTRAIT, listener := some Listener.resizeListener } =
      ([], { orientation := ORIENTATION.PORTRAIT, listener := some Listener.resizeListener }) :=
  (detector_fires_only_on_transition
    { innerWidth := 300, innerHeight := 400 }
    { orientation := none, innerWidth := 300, innerHeight := 400,
      onorientationchange := false, onresize := true }
    { orientation := ORIENTATION.PORTRAIT, listener := some Listener.resizeListener }).1
    Listener.resizeListener rfl (by decide)

/-- C2: `testOrientation` unconditionally emits exactly the landscape pair
when the Orientation Query returns landscape and exactly the portrait pair
otherwise — independent of any detector's stored state, identical on
repeated calls — and returns the target for chaining. -/
theorem testOrientation_unconditional_pair (self : Element) :
    (testOrientation self).1 = (if isLandscape self then landscape else portrait) ∧
    (testOrientation self).2 = self ∧
    (testOrientation ((testOrientation self).2)).1 = (testOrientation self).1 ∧
    (∀ m : Monitor, (testOrientationWithMonitor self m).1 = testOrientation self) ∧
    landscape = [{ type := "landscape", landscape := true, portrait := false },
      { type := "orientationchanged", landscape := true, portrait := false }] ∧
    portrait = [{ type := "portrait", landscape := false, portrait := true },
      { type := "orientationchanged", landscape := false, portrait := true }] := by
  cases h : isLandscape self <;>
    simp [testOrientation, testOrientationWithMonitor, h, landscape, portrait]

/-- C3: `isLandscape` follows the priority algorithm: with an angle present,
angle 0 is portrait and any non-zero angle is landscape regardless of the
reported geometry; with no angle, width strictly greater than height is
landscape and ties fall to portrait. -/
theorem isLandscape_priority (e : Element) (a : Int) :
    (e.orientation = some a → (isLandscape e = true ↔ a ≠ 0)) ∧
    (e.orientation = some a → ∀ W H : Int,
      isLandscape { e with innerWidth := W, innerHeight := H } = isLandscape e) ∧
    (e.orientation = none → (isLandscape e = true ↔ e.innerWidth > e.innerHeight)) := by
  refine ⟨?_, ?_, ?_⟩
  · intro h
    by_cases ha : a = 0 <;> simp [isLandscape, h, ha]
  · intro h W H
    simp [isLandscape, h]
  · intro h
    simp [isLandscape, h]

/-- Witness for C3: a target with angle 90 is landscape even though its
geometry is 3×4 (portrait-shaped). -/
theorem isLandscape_priority_witness :
    isLandscape
      { orientation := some 90, innerWidth := 3, innerHeight := 4,
        onorientationchange := true, onresize := false } = true :=
  ((isLandscape_priority
      { orientation := some 90, innerWidth := 3, innerHeight := 4,
        onorientationchange := true, onresize := false } 90).1 rfl).mpr (by decide)

/-- C4: in every event any operation emits — a native-signal handler,
`testOrientation`, or attachment itself — the `landscape` and `portrait`
payload fields are boolean complements. -/
theorem payload_complement (w : Window) (e : Element) (m : Monitor) (ev : Event)
    (h : ev ∈ (fireSignalM w e m).1 ∨ ev ∈ (testOrientation e).1 ∨ ev ∈ (init e).1) :
    ev.landscape = !ev.portrait := by
  rcases h with h | h | h
  · rcases fireSignalM_paired w e m with hp | hp | hp
    · rw [hp] at h
      simp at h
    · rw [hp] at h
      exact mem_pair_complement ev (Or.inl h)
    · rw [hp] at h
      exact mem_pair_complement ev (Or.inr h)
  · rcases lt_or_le e.innerHeight e.innerWidth with hg | hg <;>
      unfold testOrientation at h <;> split at h
    · exact mem_pair_complement ev (Or.inl h)
    · exact mem_pair_complement ev (Or.inr h)
    · exact mem_pair_complement ev (Or.inl h)
    · exact mem_pair_complement ev (Or.inr h)
  · rcases e with ⟨o, iw, ih, hoc, hr⟩
    cases hoc <;> cases hr <;> simp [init] at h

/-- Witness for C4: the landscape event emitted by `testOrientation` on a
4×3 target has complementary payload fields. -/
theorem payload_complement_witness :
    ({ type := "landscape", landscape := true, portrait := false } : Event).landscape =
      !({ type := "landscape", landscape := true, portrait := false } : Event).portrait :=
  payload_complement { innerWidth := 4, innerHeight := 3 }
    { orientation := none, innerWidth := 4, innerHeight := 3,
      onorientationchange := false, onresize := true }
    { orientation := ORIENTATION.PORTRAIT, listener := none }
    { type := "landscape", landscape := true, portrait := false }
    (Or.inr (Or.inl (by decide)))

/-- C5: every emission is the empty list or exactly one of the two fixed
pairs, in which the orientation-specific event (`landscape` or `portrait`)
is dispatched immediately before `orientationchanged`; `testOrientation`
always emits one of the two pairs. -/
theorem specific_precedes_changed (w : Window) (e : Element) (m : Monitor) :
    pairedEmission (fireSignalM w e m).1 ∧
    ((testOrientation e).1 = landscape ∨ (testOrientation e).1 = portrait) ∧
    landscape.map Event.type = ["landscape", "orientationchanged"] ∧
    portrait.map Event.type = ["portrait", "orientationchanged"] := by
  refine ⟨fireSignalM_paired w e m, ?_, rfl, rfl⟩
  unfold testOrientation
  split
  · exact Or.inl rfl
  · exact Or.inr rfl

/-- Counterexample for C6: on the 500×500 tie the Orientation Query
classifies the geometry as portrait, yet the resize signal path emits the
landscape pair from stored state Portrait — the two paths disagree at ties,
which resize resolves to landscape. -/
theorem resize_tie_disagrees_query_cex :
    isLandscape
      { orientation := none, innerWidth := 500, innerHeight := 500,
        onorientationchange := false, onresize := true } = false ∧
    (fireSignalM { innerWidth := 500, innerHeight := 500 }
      { orientation := none, innerWidth := 500, innerHeight := 500,
        onorientationchange := false, onresize := true }
      { orientation := ORIENTATION.PORTRAIT, listener := some Listener.resizeListener }).1 =
      landscape := by
  exact ⟨rfl, by decide⟩

/-- C6 (amended): the resize path derives landscape exactly when the global
window's width is at least its height (ties resolve to landscape, unlike the
Orientation Query, whose ties resolve to portrait); whenever width and
height differ, the resize derivation agrees with the Orientation Query run
on an angle-less element with the same geometry. -/
theorem resize_derivation_vs_query (w : Window) (e : Element) (m : Monitor)
    (hl : m.listener = some Listener.resizeListener) :
    (fireSignalM w e m).2.orientation = resizeDerived w ∧
    (e.orientation = none → e.innerWidth = w.innerWidth → e.innerHeight = w.innerHeight →
      w.innerWidth ≠ w.innerHeight →
      (fireSignalM w e m).2.orientation =
        (if isLandscape e then ORIENTATION.LANDSCAPE else ORIENTATION.PORTRAIT)) := by
  have hfire := fireSignalM_orientation w e m Listener.resizeListener hl
  refine ⟨hfire, ?_⟩
  intro ho hw hh hne
  rw [hfire]
  simp only [derivedOrientation] at hfire ⊢
  unfold resizeDerived
  rcases lt_trichotomy w.innerWidth w.innerHeight with hc | hc | hc
  · have h1 : ¬ w.innerWidth ≥ w.innerHeight := not_le.mpr hc
    have h2 : isLandscape e = false := by
      simp [isLandscape, ho, hw, hh]
      omega
    simp [h1, h2]
  · exact absurd hc hne
  · have h1 : w.innerWidth ≥ w.innerHeight := le_of_lt hc
    have h2 : isLandscape e = true := by
      simp [isLandscape, ho, hw, hh]
      omega
    simp [h1, h2]

/-- Witness for C6 (amended): with window 400×300 and a matching angle-less
element, a resize signal leaves the detector in the landscape state, which
is exactly what the Orientation Query says about that geometry. -/
theorem resize_derivation_vs_query_witness :
    (fireSignalM { innerWidth := 400, innerHeight := 300 }
      { orientation := none, innerWidth := 400, innerHeight := 300,
        onorientationchange := false, onresize := true }
      { orientation := ORIENTATION.PORTRAIT, listener := some Listener.resizeListener }).2.orientation =
      ORIENTATION.LANDSCAPE :=
  ((resize_derivation_vs_query { innerWidth := 400, innerHeight := 300 }
      { orientation := none, innerWidth := 400, innerHeight := 300,
        onorientationchange := false, onresize := true }
      { orientation := ORIENTATION.PORTRAIT, listener := some Listener.resizeListener }
      rfl).2 rfl rfl rfl (by decide)).trans (by decide)

/-- Counterexample for C7: a target supporting neither the native
orientation-change signal nor the native resize signal gets no listener
registration from `init` at all, not exactly one. -/
theorem attach_no_signal_source_cex :
    (init
      { orientation := none, innerWidth := 4, innerHeight := 3,
        onorientationchange := false, onresize := false }).2.listener = none := by
  decide

/-- C7 (amended): `detectOrientationChange` returns the input collection and
runs `init` on each member; `init` emits no events, stores the Orientation
Query's result as the current state, and registers at most one signal
source — the orientation-change signal when supported, else the resize
signal when supported, else none, never both. -/
theorem attach_spec (elements : List Element) (e : Element) :
    (detectOrientationChange elements).2 = elements ∧
    (detectOrientationChange elements).1 = elements.map init ∧
    (init e).1 = [] ∧
    (init e).2.orientation =
      (if isLandscape e then ORIENTATION.LANDSCAPE else ORIENTATION.PORTRAIT) ∧
    (init e).2.listener =
      (if e.onorientationchange then some Listener.orientationchangeListener
       else if e.onresize then some Listener.resizeListener
       else none) := by
  refine ⟨rfl, rfl, ?_, ?_, ?_⟩ <;>
    rcases e with ⟨o, iw, ih, hoc, hr⟩ <;>
    cases hoc <;> cases hr <;> simp [init]

/-- C8: `testOrientation` never touches the detector's stored state: the
monitor passes through a manual trigger unchanged, so the next native
signal is evaluated against exactly the detector's own last-known state. -/
theorem manual_trigger_preserves_state (e : Element) (m : Monitor)
    (w : Window) (e2 : Element) :
    (testOrientationWithMonitor e m).2 = m ∧
    fireSignalM w e2 ((testOrientationWithMonitor e m).2) = fireSignalM w e2 m :=
  ⟨rfl, rfl⟩

/-- C9: the resize handler's decision is a function of the global window's
geometry alone — it is invariant under any change of the attached element —
and the state it leaves behind is derived from `window.innerWidth` and
`window.innerHeight`. -/
theorem resize_reads_global_window (w : Window) (e e2 : Element) (s : ORIENTATION) :
    resizeHandler w e s = resizeHandler w e2 s ∧
    (resizeHandler w e s).2 = resizeDerived w :=
  ⟨rfl, resizeHandler_snd w e s⟩

theorem runSignals_no_listener (m : Monitor) (h : m.listener = none)
    (sigs : List (Window × Element)) : runSignals m sigs = [] := by
  induction sigs with
  | nil => rfl
  | cons s rest ih =>
      rw [runSignals, fireSignalM_none s.1 s.2 m h]
      simpa using ih

/-- C10: attaching to a target that supports neither the orientation-change
signal nor the resize signal registers no listener, and the Change Detector
then emits nothing over any sequence of native signals. -/
theorem unsupported_target_never_emits (e : Element)
    (h1 : e.onorientationchange = false) (h2 : e.onresize = false)
    (sigs : List (Window × Element)) :
    (init e).2.listener = none ∧ runSignals (init e).2 sigs = [] := by
  have hl : (init e).2.listener = none := by
    rcases e with ⟨o, iw, ih, hoc, hr⟩
    simp only at h1 h2
    subst h1
    subst h2
    simp [init]
  exact ⟨hl, runSignals_no_listener (init e).2 hl sigs⟩

/-- Witness for C10: a signal-less 5×3 target gets no listener and a signal
sequence of length one produces no events. -/
theorem unsupported_target_never_emits_witness :
    (init
      { orientation := none, innerWidth := 5, innerHeight := 3,
        onorientationchange := false, onresize := false }).2.listener = none ∧
    runSignals
      (init
        { orientation := none, innerWidth := 5, innerHeight := 3,
          onorientationchange := false, onresize := false }).2
      [({ innerWidth := 5, innerHeight := 3 },
        { orientation := none, innerWidth := 5, innerHeight := 3,
          onorientationchange := false, onresize := false })] = [] :=
  unsupported_target_never_emits
    { orientation := none, innerWidth := 5, innerHeight := 3,
      onorientationchange := false, onresize := false }
    rfl rfl
    [({ innerWidth := 5, innerHeight := 3 },
      { orientation := none, innerWidth := 5, innerHeight := 3,
        onorientationchange := false, onresize := false })]

end OrientationChange
